import Mathlib

/-!
Verification of the hubbub HTML parser bridge
(`src/components/script/html/hubbub_html_parser.rs`).

The development shallowly embeds the bridge's pure/sequential behaviour:
the script-discovery pipeline worker, the tag-to-element factory, the
tree-construction callbacks, `create_element`'s namespace handling,
`complete_script`'s request construction, and `parse_last_modified`.
External collaborators (the resource loader, the DOM node API, the `time`
crate, the `url` crate) are modelled explicitly where a claim depends on
them, each such definition marked in its doc comment.
-/

namespace Hubbub

set_option maxRecDepth 100000

/-- A URL, represented by its serialization.  The `url` crate's `Url` type
is opaque to the bridge; only identity and the serialized form matter here. -/
structure Url where
  serialized : String
deriving DecidableEq, Repr

/-- Resource-load metadata (`servo_net::resource_task::Metadata`): the claims
only use the final URL after redirects. -/
structure Metadata where
  final_url : Url
deriving DecidableEq, Repr

/-- One discovered script: decoded text plus its source URL
(source struct `JSFile`). -/
structure JSFile where
  data : String
  url : Option Url
deriving DecidableEq, Repr

/-- The published ordered script result set (source type `JSResult`). -/
abbrev JSResult := List JSFile

/-- Requests sent from the bridge to the script pipeline
(source enum `JSMessage`). -/
inductive JSMessage where
  | JSTaskNewFile : Url → JSMessage
  | JSTaskNewInlineScript : String → Option Url → JSMessage
  | JSTaskExit : JSMessage
deriving DecidableEq, Repr

/-- Modelled from the spec: the resource loader's `load_whole_resource`
followed by lossy UTF-8 decoding.  `none` is a load error; `some` carries the
metadata and the decoded body (decoding with replacement never fails, so the
body is represented post-decode). -/
abbrev ResourceTask := Url → Option (Metadata × String)

/-- The script pipeline worker (source fn `js_script_listener`): drains its
request channel strictly in arrival order; an external load that fails is
logged and skipped; `JSTaskExit` (or a closed channel, the `[]` case) stops
the loop, after which the accumulated ordered result set is published once. -/
def js_script_listener (resource_task : ResourceTask) : List JSMessage → JSResult
  | [] => []
  | msg :: rest =>
    match msg with
    | .JSTaskNewFile url =>
      match resource_task url with
      | none => js_script_listener resource_task rest
      | some (metadata, decoded) =>
        { data := decoded, url := some metadata.final_url } ::
          js_script_listener resource_task rest
    | .JSTaskNewInlineScript data url =>
      { data := data, url := url } :: js_script_listener resource_task rest
    | .JSTaskExit => []

/-- The result the pipeline produces for a single request: `none` when the
request yields no entry (a failed external load, or the exit message). -/
def respond (resource_task : ResourceTask) : JSMessage → Option JSFile
  | .JSTaskNewFile url =>
    (resource_task url).map fun p => { data := p.2, url := some p.1.final_url }
  | .JSTaskNewInlineScript data url => some { data := data, url := url }
  | .JSTaskExit => none

/-- Concrete namespaces (`string_cache::Namespace` values produced by the
`ns!` macro): the empty/null namespace plus the six named ones the bridge
uses. -/
inductive Ns where
  | null
  | HTML
  | MathML
  | SVG
  | XLink
  | XML
  | XMLNS
deriving DecidableEq, Repr

/-- Heading levels (`dom::htmlheadingelement::{Heading1, ..., Heading6}`). -/
inductive HeadingLevel where
  | Heading1
  | Heading2
  | Heading3
  | Heading4
  | Heading5
  | Heading6
deriving DecidableEq, Repr

/-- The numeric level a `HeadingLevel` denotes. -/
def HeadingLevel.toNat : HeadingLevel → Nat
  | .Heading1 => 1
  | .Heading2 => 2
  | .Heading3 => 3
  | .Heading4 => 4
  | .Heading5 => 5
  | .Heading6 => 6

/-- The concrete element kind chosen by the factory: one constructor per DOM
element type the dispatch table constructs.  The heading level argument of
`HTMLHeadingElement::new` is carried by `Element.heading_level`;
`GenericElement` is `Element::new` for non-HTML namespaces. -/
inductive ElementKind where
  | HTMLAnchorElement
  | HTMLAppletElement
  | HTMLAreaElement
  | HTMLAudioElement
  | HTMLBRElement
  | HTMLBaseElement
  | HTMLBodyElement
  | HTMLButtonElement
  | HTMLCanvasElement
  | HTMLDListElement
  | HTMLDataElement
  | HTMLDataListElement
  | HTMLDirectoryElement
  | HTMLDivElement
  | HTMLElement
  | HTMLEmbedElement
  | HTMLFieldSetElement
  | HTMLFontElement
  | HTMLFormElement
  | HTMLFrameElement
  | HTMLFrameSetElement
  | HTMLHRElement
  | HTMLHeadElement
  | HTMLHeadingElement
  | HTMLHtmlElement
  | HTMLIFrameElement
  | HTMLImageElement
  | HTMLInputElement
  | HTMLLIElement
  | HTMLLabelElement
  | HTMLLegendElement
  | HTMLLinkElement
  | HTMLMapElement
  | HTMLMetaElement
  | HTMLMeterElement
  | HTMLModElement
  | HTMLOListElement
  | HTMLObjectElement
  | HTMLOptGroupElement
  | HTMLOptionElement
  | HTMLOutputElement
  | HTMLParagraphElement
  | HTMLParamElement
  | HTMLPreElement
  | HTMLProgressElement
  | HTMLQuoteElement
  | HTMLScriptElement
  | HTMLSelectElement
  | HTMLSourceElement
  | HTMLSpanElement
  | HTMLStyleElement
  | HTMLTableCaptionElement
  | HTMLTableColElement
  | HTMLTableDataCellElement
  | HTMLTableElement
  | HTMLTableHeaderCellElement
  | HTMLTableRowElement
  | HTMLTableSectionElement
  | HTMLTemplateElement
  | HTMLTextAreaElement
  | HTMLTimeElement
  | HTMLTitleElement
  | HTMLTrackElement
  | HTMLUListElement
  | HTMLUnknownElement
  | HTMLVideoElement
  | GenericElement
deriving DecidableEq, Repr

/-- An attribute as attached by the parser path:
(namespace, prefix, local name, value). -/
structure Attr where
  namespace_ : Ns
  prefixName : Option String
  name : String
  value : String
deriving DecidableEq, Repr

/-- The element the factory returns: each DOM constructor
`Ctor::new(localName, document, ...)` stores the tag as the element's local
name; HTML-table constructors put it in the HTML namespace, `Element::new`
takes the namespace explicitly and a `None` prefix. -/
structure Element where
  local_name : String
  namespace_ : Ns
  kind : ElementKind
  heading_level : Option HeadingLevel
  attrs : List Attr
deriving DecidableEq, Repr

/-- An element built by one `handle_element!` arm: the matched HTML
constructor applied to the tag name and the document. -/
def htmlElt (tag : String) (kind : ElementKind) : Element :=
  { local_name := tag, namespace_ := .HTML, kind := kind,
    heading_level := none, attrs := [] }

/-- An element built by one of the six heading arms:
`HTMLHeadingElement::new(tag, document, level)`. -/
def htmlHeadingElt (tag : String) (level : HeadingLevel) : Element :=
  { local_name := tag, namespace_ := .HTML, kind := .HTMLHeadingElement,
    heading_level := some level, attrs := [] }

/-- The element factory (source fn `build_element_from_tag`): a non-HTML
namespace short-circuits to a generic namespaced element; otherwise the
macro-generated chain tests the tag against each known name in order
(case-sensitive string equality) and the fallthrough is
`HTMLUnknownElement`. -/
def build_element_from_tag (tag : String) (ns : Ns) : Element :=
  if ns ≠ .HTML then
    { local_name := tag, namespace_ := ns, kind := .GenericElement,
      heading_level := none, attrs := [] }
  else if tag = "a" then htmlElt tag .HTMLAnchorElement
  else if tag = "abbr" then htmlElt tag .HTMLElement
  else if tag = "acronym" then htmlElt tag .HTMLElement
  else if tag = "address" then htmlElt tag .HTMLElement
  else if tag = "applet" then htmlElt tag .HTMLAppletElement
  else if tag = "area" then htmlElt tag .HTMLAreaElement
  else if tag = "article" then htmlElt tag .HTMLElement
  else if tag = "aside" then htmlElt tag .HTMLElement
  else if tag = "audio" then htmlElt tag .HTMLAudioElement
  else if tag = "b" then htmlElt tag .HTMLElement
  else if tag = "base" then htmlElt tag .HTMLBaseElement
  else if tag = "bdi" then htmlElt tag .HTMLElement
  else if tag = "bdo" then htmlElt tag .HTMLElement
  else if tag = "bgsound" then htmlElt tag .HTMLElement
  else if tag = "big" then htmlElt tag .HTMLElement
  else if tag = "blockquote" then htmlElt tag .HTMLElement
  else if tag = "body" then htmlElt tag .HTMLBodyElement
  else if tag = "br" then htmlElt tag .HTMLBRElement
  else if tag = "button" then htmlElt tag .HTMLButtonElement
  else if tag = "canvas" then htmlElt tag .HTMLCanvasElement
  else if tag = "caption" then htmlElt tag .HTMLTableCaptionElement
  else if tag = "center" then htmlElt tag .HTMLElement
  else if tag = "cite" then htmlElt tag .HTMLElement
  else if tag = "code" then htmlElt tag .HTMLElement
  else if tag = "col" then htmlElt tag .HTMLTableColElement
  else if tag = "colgroup" then htmlElt tag .HTMLTableColElement
  else if tag = "data" then htmlElt tag .HTMLDataElement
  else if tag = "datalist" then htmlElt tag .HTMLDataListElement
  else if tag = "dd" then htmlElt tag .HTMLElement
  else if tag = "del" then htmlElt tag .HTMLModElement
  else if tag = "details" then htmlElt tag .HTMLElement
  else if tag = "dfn" then htmlElt tag .HTMLElement
  else if tag = "dir" then htmlElt tag .HTMLDirectoryElement
  else if tag = "div" then htmlElt tag .HTMLDivElement
  else if tag = "dl" then htmlElt tag .HTMLDListElement
  else if tag = "dt" then htmlElt tag .HTMLElement
  else if tag = "em" then htmlElt tag .HTMLElement
  else if tag = "embed" then htmlElt tag .HTMLEmbedElement
  else if tag = "fieldset" then htmlElt tag .HTMLFieldSetElement
  else if tag = "figcaption" then htmlElt tag .HTMLElement
  else if tag = "figure" then htmlElt tag .HTMLElement
  else if tag = "font" then htmlElt tag .HTMLFontElement
  else if tag = "footer" then htmlElt tag .HTMLElement
  else if tag = "form" then htmlElt tag .HTMLFormElement
  else if tag = "frame" then htmlElt tag .HTMLFrameElement
  else if tag = "frameset" then htmlElt tag .HTMLFrameSetElement
  else if tag = "h1" then htmlHeadingElt tag .Heading1
  else if tag = "h2" then htmlHeadingElt tag .Heading2
  else if tag = "h3" then htmlHeadingElt tag .Heading3
  else if tag = "h4" then htmlHeadingElt tag .Heading4
  else if tag = "h5" then htmlHeadingElt tag .Heading5
  else if tag = "h6" then htmlHeadingElt tag .Heading6
  else if tag = "head" then htmlElt tag .HTMLHeadElement
  else if tag = "header" then htmlElt tag .HTMLElement
  else if tag = "hgroup" then htmlElt tag .HTMLElement
  else if tag = "hr" then htmlElt tag .HTMLHRElement
  else if tag = "html" then htmlElt tag .HTMLHtmlElement
  else if tag = "i" then htmlElt tag .HTMLElement
  else if tag = "iframe" then htmlElt tag .HTMLIFrameElement
  else if tag = "img" then htmlElt tag .HTMLImageElement
  else if tag = "input" then htmlElt tag .HTMLInputElement
  else if tag = "ins" then htmlElt tag .HTMLModElement
  else if tag = "isindex" then htmlElt tag .HTMLElement
  else if tag = "kbd" then htmlElt tag .HTMLElement
  else if tag = "label" then htmlElt tag .HTMLLabelElement
  else if tag = "legend" then htmlElt tag .HTMLLegendElement
  else if tag = "li" then htmlElt tag .HTMLLIElement
  else if tag = "link" then htmlElt tag .HTMLLinkElement
  else if tag = "main" then htmlElt tag .HTMLElement
  else if tag = "map" then htmlElt tag .HTMLMapElement
  else if tag = "mark" then htmlElt tag .HTMLElement
  else if tag = "marquee" then htmlElt tag .HTMLElement
  else if tag = "meta" then htmlElt tag .HTMLMetaElement
  else if tag = "meter" then htmlElt tag .HTMLMeterElement
  else if tag = "nav" then htmlElt tag .HTMLElement
  else if tag = "nobr" then htmlElt tag .HTMLElement
  else if tag = "noframes" then htmlElt tag .HTMLElement
  else if tag = "noscript" then htmlElt tag .HTMLElement
  else if tag = "object" then htmlElt tag .HTMLObjectElement
  else if tag = "ol" then htmlElt tag .HTMLOListElement
  else if tag = "optgroup" then htmlElt tag .HTMLOptGroupElement
  else if tag = "option" then htmlElt tag .HTMLOptionElement
  else if tag = "output" then htmlElt tag .HTMLOutputElement
  else if tag = "p" then htmlElt tag .HTMLParagraphElement
  else if tag = "param" then htmlElt tag .HTMLParamElement
  else if tag = "pre" then htmlElt tag .HTMLPreElement
  else if tag = "progress" then htmlElt tag .HTMLProgressElement
  else if tag = "q" then htmlElt tag .HTMLQuoteElement
  else if tag = "rp" then htmlElt tag .HTMLElement
  else if tag = "rt" then htmlElt tag .HTMLElement
  else if tag = "ruby" then htmlElt tag .HTMLElement
  else if tag = "s" then htmlElt tag .HTMLElement
  else if tag = "samp" then htmlElt tag .HTMLElement
  else if tag = "script" then htmlElt tag .HTMLScriptElement
  else if tag = "section" then htmlElt tag .HTMLElement
  else if tag = "select" then htmlElt tag .HTMLSelectElement
  else if tag = "small" then htmlElt tag .HTMLElement
  else if tag = "source" then htmlElt tag .HTMLSourceElement
  else if tag = "spacer" then htmlElt tag .HTMLElement
  else if tag = "span" then htmlElt tag .HTMLSpanElement
  else if tag = "strike" then htmlElt tag .HTMLElement
  else if tag = "strong" then htmlElt tag .HTMLElement
  else if tag = "style" then htmlElt tag .HTMLStyleElement
  else if tag = "sub" then htmlElt tag .HTMLElement
  else if tag = "summary" then htmlElt tag .HTMLElement
  else if tag = "sup" then htmlElt tag .HTMLElement
  else if tag = "table" then htmlElt tag .HTMLTableElement
  else if tag = "tbody" then htmlElt tag .HTMLTableSectionElement
  else if tag = "td" then htmlElt tag .HTMLTableDataCellElement
  else if tag = "template" then htmlElt tag .HTMLTemplateElement
  else if tag = "textarea" then htmlElt tag .HTMLTextAreaElement
  else if tag = "th" then htmlElt tag .HTMLTableHeaderCellElement
  else if tag = "time" then htmlElt tag .HTMLTimeElement
  else if tag = "title" then htmlElt tag .HTMLTitleElement
  else if tag = "tr" then htmlElt tag .HTMLTableRowElement
  else if tag = "tt" then htmlElt tag .HTMLElement
  else if tag = "track" then htmlElt tag .HTMLTrackElement
  else if tag = "u" then htmlElt tag .HTMLElement
  else if tag = "ul" then htmlElt tag .HTMLUListElement
  else if tag = "var" then htmlElt tag .HTMLElement
  else if tag = "video" then htmlElt tag .HTMLVideoElement
  else if tag = "wbr" then htmlElt tag .HTMLElement
  else htmlElt tag .HTMLUnknownElement

/-- The dispatch table as data, in source order: each known HTML tag name
paired with the element kind the chain assigns to it and, for the six
heading tags, the heading level passed to the constructor. -/
def knownHtmlTags : List (String × ElementKind × Option HeadingLevel) :=
  [("a", ElementKind.HTMLAnchorElement, none), ("abbr", ElementKind.HTMLElement, none), ("acronym", ElementKind.HTMLElement, none),
   ("address", ElementKind.HTMLElement, none), ("applet", ElementKind.HTMLAppletElement, none),
   ("area", ElementKind.HTMLAreaElement, none), ("article", ElementKind.HTMLElement, none), ("aside", ElementKind.HTMLElement, none),
   ("audio", ElementKind.HTMLAudioElement, none), ("b", ElementKind.HTMLElement, none), ("base", ElementKind.HTMLBaseElement, none),
   ("bdi", ElementKind.HTMLElement, none), ("bdo", ElementKind.HTMLElement, none), ("bgsound", ElementKind.HTMLElement, none),
   ("big", ElementKind.HTMLElement, none), ("blockquote", ElementKind.HTMLElement, none),
   ("body", ElementKind.HTMLBodyElement, none), ("br", ElementKind.HTMLBRElement, none),
   ("button", ElementKind.HTMLButtonElement, none), ("canvas", ElementKind.HTMLCanvasElement, none),
   ("caption", ElementKind.HTMLTableCaptionElement, none), ("center", ElementKind.HTMLElement, none),
   ("cite", ElementKind.HTMLElement, none), ("code", ElementKind.HTMLElement, none), ("col", ElementKind.HTMLTableColElement, none),
   ("colgroup", ElementKind.HTMLTableColElement, none), ("data", ElementKind.HTMLDataElement, none),
   ("datalist", ElementKind.HTMLDataListElement, none), ("dd", ElementKind.HTMLElement, none),
   ("del", ElementKind.HTMLModElement, none), ("details", ElementKind.HTMLElement, none), ("dfn", ElementKind.HTMLElement, none),
   ("dir", ElementKind.HTMLDirectoryElement, none), ("div", ElementKind.HTMLDivElement, none),
   ("dl", ElementKind.HTMLDListElement, none), ("dt", ElementKind.HTMLElement, none), ("em", ElementKind.HTMLElement, none),
   ("embed", ElementKind.HTMLEmbedElement, none), ("fieldset", ElementKind.HTMLFieldSetElement, none),
   ("figcaption", ElementKind.HTMLElement, none), ("figure", ElementKind.HTMLElement, none),
   ("font", ElementKind.HTMLFontElement, none), ("footer", ElementKind.HTMLElement, none),
   ("form", ElementKind.HTMLFormElement, none), ("frame", ElementKind.HTMLFrameElement, none),
   ("frameset", ElementKind.HTMLFrameSetElement, none),
   ("h1", ElementKind.HTMLHeadingElement, some HeadingLevel.Heading1),
   ("h2", ElementKind.HTMLHeadingElement, some HeadingLevel.Heading2),
   ("h3", ElementKind.HTMLHeadingElement, some HeadingLevel.Heading3),
   ("h4", ElementKind.HTMLHeadingElement, some HeadingLevel.Heading4),
   ("h5", ElementKind.HTMLHeadingElement, some HeadingLevel.Heading5),
   ("h6", ElementKind.HTMLHeadingElement, some HeadingLevel.Heading6),
   ("head", ElementKind.HTMLHeadElement, none), ("header", ElementKind.HTMLElement, none),
   ("hgroup", ElementKind.HTMLElement, none), ("hr", ElementKind.HTMLHRElement, none),
   ("html", ElementKind.HTMLHtmlElement, none), ("i", ElementKind.HTMLElement, none),
   ("iframe", ElementKind.HTMLIFrameElement, none), ("img", ElementKind.HTMLImageElement, none),
   ("input", ElementKind.HTMLInputElement, none), ("ins", ElementKind.HTMLModElement, none),
   ("isindex", ElementKind.HTMLElement, none), ("kbd", ElementKind.HTMLElement, none),
   ("label", ElementKind.HTMLLabelElement, none), ("legend", ElementKind.HTMLLegendElement, none),
   ("li", ElementKind.HTMLLIElement, none), ("link", ElementKind.HTMLLinkElement, none), ("main", ElementKind.HTMLElement, none),
   ("map", ElementKind.HTMLMapElement, none), ("mark", ElementKind.HTMLElement, none), ("marquee", ElementKind.HTMLElement, none),
   ("meta", ElementKind.HTMLMetaElement, none), ("meter", ElementKind.HTMLMeterElement, none),
   ("nav", ElementKind.HTMLElement, none), ("nobr", ElementKind.HTMLElement, none), ("noframes", ElementKind.HTMLElement, none),
   ("noscript", ElementKind.HTMLElement, none), ("object", ElementKind.HTMLObjectElement, none),
   ("ol", ElementKind.HTMLOListElement, none), ("optgroup", ElementKind.HTMLOptGroupElement, none),
   ("option", ElementKind.HTMLOptionElement, none), ("output", ElementKind.HTMLOutputElement, none),
   ("p", ElementKind.HTMLParagraphElement, none), ("param", ElementKind.HTMLParamElement, none),
   ("pre", ElementKind.HTMLPreElement, none), ("progress", ElementKind.HTMLProgressElement, none),
   ("q", ElementKind.HTMLQuoteElement, none), ("rp", ElementKind.HTMLElement, none), ("rt", ElementKind.HTMLElement, none),
   ("ruby", ElementKind.HTMLElement, none), ("s", ElementKind.HTMLElement, none), ("samp", ElementKind.HTMLElement, none),
   ("script", ElementKind.HTMLScriptElement, none), ("section", ElementKind.HTMLElement, none),
   ("select", ElementKind.HTMLSelectElement, none), ("small", ElementKind.HTMLElement, none),
   ("source", ElementKind.HTMLSourceElement, none), ("spacer", ElementKind.HTMLElement, none),
   ("span", ElementKind.HTMLSpanElement, none), ("strike", ElementKind.HTMLElement, none),
   ("strong", ElementKind.HTMLElement, none), ("style", ElementKind.HTMLStyleElement, none),
   ("sub", ElementKind.HTMLElement, none), ("summary", ElementKind.HTMLElement, none), ("sup", ElementKind.HTMLElement, none),
   ("table", ElementKind.HTMLTableElement, none), ("tbody", ElementKind.HTMLTableSectionElement, none),
   ("td", ElementKind.HTMLTableDataCellElement, none), ("template", ElementKind.HTMLTemplateElement, none),
   ("textarea", ElementKind.HTMLTextAreaElement, none), ("th", ElementKind.HTMLTableHeaderCellElement, none),
   ("time", ElementKind.HTMLTimeElement, none), ("title", ElementKind.HTMLTitleElement, none),
   ("tr", ElementKind.HTMLTableRowElement, none), ("tt", ElementKind.HTMLElement, none),
   ("track", ElementKind.HTMLTrackElement, none), ("u", ElementKind.HTMLElement, none),
   ("ul", ElementKind.HTMLUListElement, none), ("var", ElementKind.HTMLElement, none),
   ("video", ElementKind.HTMLVideoElement, none), ("wbr", ElementKind.HTMLElement, none)]

/-- A child node of a script element as seen by `complete_script`'s inline
branch: the loop casts each child to `Text` (`TextCast::to_ref(child)`) and
reads its character data; any non-text child makes the cast return `None`. -/
inductive ScriptChild where
  | text (data : String)
  | nonText
deriving DecidableEq, Repr

/-- The parts of an `HTMLScriptElement` that `complete_script` reads: the
result of `is_javascript()`, the null-namespace `src` attribute's value, and
the element's children in document order. -/
structure ScriptElement where
  is_javascript : Bool
  src_attr : Option String
  children : List ScriptChild
deriving DecidableEq, Repr

/-- Modelled from the spec: the `url` crate's `UrlParser` — a parser,
optionally carrying the page's base URL, applied to the `src` attribute
value; `none` is a parse error (e.g. a relative reference with no base). -/
abbrev UrlParse := Option Url → String → Option Url

/-- The inline-script data accumulation in `complete_script`: iterate over
the element's children in document order, casting each to `Text` and
appending its data; `none` models the `unwrap` failure on a non-text
child. -/
def inline_script_data : List ScriptChild → Option String
  | [] => some ""
  | .text d :: rest => (inline_script_data rest).map fun s => d ++ s
  | .nonText :: _ => none

/-- The `complete_script` tree handler.  The handle resolves to `none` when
the node is not an `HTMLScriptElement`; a non-JavaScript script is a no-op
(the `_ => return` arm).  With a `src` attribute the value is parsed against
the base URL and a `JSTaskNewFile` is sent on success (a parse failure is
only logged); otherwise the text children are concatenated and a
`JSTaskNewInlineScript` is sent.  The returned list holds the messages sent
on the pipeline channel; the outer `Option` is `none` exactly when the
inline loop's cast fails. -/
def complete_script (url_parse : UrlParse) (base_url : Option Url)
    (node : Option ScriptElement) : Option (List JSMessage) :=
  match node with
  | none => some []
  | some script =>
    if !script.is_javascript then some []
    else
      match script.src_attr with
      | some src =>
        match url_parse base_url src with
        | some new_url => some [.JSTaskNewFile new_url]
        | none => some []
      | none =>
        (inline_script_data script.children).map
          fun data => [.JSTaskNewInlineScript data base_url]

/-- The opaque node pointer exchanged with the hubbub engine
(`hubbub::NodeDataPtr`); the stubbed callbacks return the literal `0u`. -/
abbrev NodeDataPtr := Nat

/-- The `insert_before` tree handler: a stub, logs and returns `0u`. -/
def insert_before (_parent _child : NodeDataPtr) : NodeDataPtr := 0

/-- The `remove_child` tree handler: a stub, logs and returns `0u`. -/
def remove_child (_parent _child : NodeDataPtr) : NodeDataPtr := 0

/-- The `clone_node` tree handler: unconditionally `fail!`, modelled as
`none`; no clone is ever produced. -/
def clone_node (_node : NodeDataPtr) (_deep : Bool) : Option NodeDataPtr :=
  none

/-- The `reparent_children` tree handler: a stub, logs and returns `0u`. -/
def reparent_children (_node _new_parent : NodeDataPtr) : NodeDataPtr := 0

/-- The `get_parent` tree handler: a stub, logs and returns `0u`. -/
def get_parent (_node : NodeDataPtr) (_element_only : Bool) : NodeDataPtr := 0

/-- The `has_children` tree handler: a stub, logs and returns `false`. -/
def has_children (_node : NodeDataPtr) : Bool := false

/-- The `form_associate` tree handler: a stub, logs and does nothing. -/
def form_associate (_form _node : NodeDataPtr) : Unit := ()

/-- The `add_attributes` tree handler: a stub, logs and does nothing. -/
def add_attributes (_node : NodeDataPtr) (_attributes : List Attr) : Unit := ()

/-- Modelled from the spec: the live document tree's shape as far as the
tree-editing callbacks touch it — each node's ordered child list, keyed by
the engine's node pointer (handle resolution is the identity here, as the
bridge reinterprets pointers directly). -/
structure DomState where
  children : NodeDataPtr → List NodeDataPtr

/-- Modelled from the spec: the consumed DOM mutation interface
`Node.AppendChild` — append the child at the end of the parent's ordered
child list. -/
def AppendChild (st : DomState) (parent child : NodeDataPtr) : DomState :=
  { children := fun n =>
      if n = parent then st.children parent ++ [child] else st.children n }

/-- The live-tree query the `has_children` callback contract asks for,
modelled from the spec: whether the resolved node has any children. -/
def has_children_query (st : DomState) (node : NodeDataPtr) : Bool :=
  !(st.children node).isEmpty

/-- The `append_child` tree handler: resolve both handles, append the child
under the parent (the source asserts the DOM call succeeds), and return the
child handle back to the engine. -/
def append_child (st : DomState) (parent child : NodeDataPtr) :
    DomState × NodeDataPtr :=
  (AppendChild st parent child, child)

/-- A sequence of `append_child` calls on one parent, in call order. -/
def append_children (st : DomState) (parent : NodeDataPtr) :
    List NodeDataPtr → DomState
  | [] => st
  | c :: cs => append_children (append_child st parent c).1 parent cs

/-- The hubbub namespace ids
(`hubbub::hubbub::{NullNs, HtmlNs, MathMlNs, SvgNs, XLinkNs, XmlNs,
XmlNsNs}`). -/
inductive HubbubNs where
  | NullNs
  | HtmlNs
  | MathMlNs
  | SvgNs
  | XLinkNs
  | XmlNs
  | XmlNsNs
deriving DecidableEq, Repr

/-- An attribute as delivered by the engine inside a tag
(`hubbub::Tag::attributes` entries). -/
structure HubbubAttr where
  ns : HubbubNs
  name : String
  value : String
deriving DecidableEq, Repr

/-- A tag as delivered by the engine to `create_element`
(`hubbub::Tag`). -/
structure HubbubTag where
  name : String
  ns : HubbubNs
  attributes : List HubbubAttr
deriving DecidableEq, Repr

/-- The element-namespace match inside `create_element`: the three element
namespaces map to concrete values; any other id hits `fail!`, modelled
`none`. -/
def element_namespace : HubbubNs → Option Ns
  | .HtmlNs => some .HTML
  | .MathMlNs => some .MathML
  | .SvgNs => some .SVG
  | _ => none

/-- The attribute-namespace match inside `create_element`'s attribute loop:
the four attribute namespaces map to a concrete namespace plus prefix; any
other id hits `fail!`, modelled `none`. -/
def attr_namespace : HubbubNs → Option (Ns × Option String)
  | .NullNs => some (.null, none)
  | .XLinkNs => some (.XLink, some "xlink")
  | .XmlNs => some (.XML, some "xml")
  | .XmlNsNs => some (.XMLNS, some "xmlns")
  | _ => none

/-- Modelled from the spec: `Element`s attribute-from-parsing setter — attach a
parser-originated attribute to the element, bypassing the mutation
validation used for script-driven changes. -/
def set_attribute_from_parsing (element : Element) (name : String)
    (value : String) (namespace_ : Ns) (p : Option String) : Element :=
  { element with
    attrs := element.attrs ++
      [{ namespace_ := namespace_, prefixName := p, name := name,
         value := value }] }

/-- The concrete attribute `create_element` attaches for one engine
attribute, when its namespace id is accepted. -/
def attrOf (a : HubbubAttr) : Option Attr :=
  (attr_namespace a.ns).map fun p =>
    { namespace_ := p.1, prefixName := p.2, name := a.name, value := a.value }

/-- The `create_element` tree handler: map the tag's namespace id (an
unexpected id is a fatal `fail!`, modelled `none`), build the element via
the factory, then attach each attribute through the parser path in order,
mapping each attribute's namespace id (again `fail!` on an unexpected
id). -/
def create_element (tag : HubbubTag) : Option Element :=
  match element_namespace tag.ns with
  | none => none
  | some namespace_ =>
    let element := build_element_from_tag tag.name namespace_
    tag.attributes.foldlM
      (fun element attr =>
        match attr_namespace attr.ns with
        | none => none
        | some (ns, p) =>
          some (set_attribute_from_parsing element attr.name attr.value ns p))
      element

/-- Modelled from the spec: the `time` crate's broken-down time, with the
fields the three date formats and the output format use (`tm_mon` is
zero-based as in C). -/
structure Tm where
  sec : Nat
  min : Nat
  hour : Nat
  mday : Nat
  mon : Nat
  year : Nat
deriving DecidableEq, Repr

/-- Abbreviated weekday names matched by the `%a` directive. -/
def abbrevWeekdays : List (List Char) :=
  ["Sun".toList, "Mon".toList, "Tue".toList, "Wed".toList, "Thu".toList,
   "Fri".toList, "Sat".toList]

/-- Full weekday names matched by the `%A` directive. -/
def fullWeekdays : List (List Char) :=
  ["Sunday".toList, "Monday".toList, "Tuesday".toList, "Wednesday".toList,
   "Thursday".toList, "Friday".toList, "Saturday".toList]

/-- Abbreviated month names matched by the `%b` directive, in order, so the
index of a name is the zero-based month. -/
def abbrevMonths : List (List Char) :=
  ["Jan".toList, "Feb".toList, "Mar".toList, "Apr".toList, "May".toList,
   "Jun".toList, "Jul".toList, "Aug".toList, "Sep".toList, "Oct".toList,
   "Nov".toList, "Dec".toList]

/-- Timezone names accepted by the `%Z` directive for a universal time. -/
def zoneNames : List (List Char) :=
  ["GMT".toList, "UT".toList, "UTC".toList]

/-- Split a character list on a separator character. -/
def splitOnChar (sep : Char) (cs : List Char) : List (List Char) :=
  match cs with
  | [] => [[]]
  | c :: rest =>
    let groups := splitOnChar sep rest
    if c = sep then [] :: groups
    else
      match groups with
      | [] => [[c]]
      | g :: gs => (c :: g) :: gs

/-- Decimal value of a digit list, `none` when empty or a non-digit
appears. -/
def digitsToNat : List Char → Option Nat
  | [] => none
  | cs =>
    cs.foldlM
      (fun acc c =>
        if c.isDigit then some (acc * 10 + (c.toNat - 48)) else none)
      0

/-- Fixed-width decimal field of the given width. -/
def parseFixedNat (width : Nat) (cs : List Char) : Option Nat :=
  if cs.length = width then digitsToNat cs else none

/-- The `%T` directive: `HH:MM:SS` with in-range fields. -/
def parseTimeOfDay (cs : List Char) : Option (Nat × Nat × Nat) :=
  match splitOnChar ':' cs with
  | [h, m, s] => do
    let hour ← parseFixedNat 2 h
    let min ← parseFixedNat 2 m
    let sec ← parseFixedNat 2 s
    if hour ≤ 23 ∧ min ≤ 59 ∧ sec ≤ 60 then some (hour, min, sec) else none
  | _ => none

/-- The `%b` directive: index of an abbreviated month name. -/
def parseMonth (cs : List Char) : Option Nat :=
  abbrevMonths.indexOf? cs

/-- The `%d` directive: a two-digit day of month, `01`-`31`. -/
def parseMday (cs : List Char) : Option Nat := do
  let d ← parseFixedNat 2 cs
  if 1 ≤ d ∧ d ≤ 31 then some d else none

/-- Modelled from the spec: `time::strptime` with the RFC 822/1123 format
string `%a, %d %b %Y %T %Z` — abbreviated weekday, comma, two-digit day,
abbreviated month, four-digit year, time of day, timezone name. -/
def strptime_rfc1123 (timestamp : String) : Option Tm :=
  match splitOnChar ' ' timestamp.toList with
  | [wd, day, mon, year, time, zone] => do
    let wdname ←
      match wd.reverse with
      | ',' :: rest => some rest.reverse
      | _ => none
    if wdname ∈ abbrevWeekdays then
      let d ← parseMday day
      let m ← parseMonth mon
      let y ← parseFixedNat 4 year
      let t ← parseTimeOfDay time
      if zone ∈ zoneNames then
        some { sec := t.2.2, min := t.2.1, hour := t.1, mday := d, mon := m,
               year := y }
      else none
    else none
  | _ => none

/-- Modelled from the spec: `time::strptime` with the RFC 850 format string
`%A, %d-%b-%y %T %Z` — full weekday, comma, day-month-two-digit-year joined
by hyphens, time of day, timezone name; a two-digit year below 69 is
2000-based, otherwise 1900-based. -/
def strptime_rfc850 (timestamp : String) : Option Tm :=
  match splitOnChar ' ' timestamp.toList with
  | [wd, date, time, zone] => do
    let wdname ←
      match wd.reverse with
      | ',' :: rest => some rest.reverse
      | _ => none
    if wdname ∈ fullWeekdays then
      match splitOnChar '-' date with
      | [day, mon, year] => do
        let d ← parseMday day
        let m ← parseMonth mon
        let y2 ← parseFixedNat 2 year
        let t ← parseTimeOfDay time
        if zone ∈ zoneNames then
          some { sec := t.2.2, min := t.2.1, hour := t.1, mday := d, mon := m,
                 year := if y2 < 69 then 2000 + y2 else 1900 + y2 }
        else none
      | _ => none
    else none
  | _ => none

/-- Modelled from the spec: `time::strptime` with the `%c` format, ANSI C's
`asctime()` layout `%a %b %e %T %Y` — abbreviated weekday, abbreviated
month, space- or zero-padded day, time of day, four-digit year; the
space-padding makes consecutive separators possible, so empty fields are
dropped. -/
def strptime_asctime (timestamp : String) : Option Tm :=
  match (splitOnChar ' ' timestamp.toList).filter (fun g => !g.isEmpty) with
  | [wd, mon, day, time, year] => do
    if wd ∈ abbrevWeekdays then
      let m ← parseMonth mon
      let d ← digitsToNat day
      if 1 ≤ d ∧ d ≤ 31 ∧ day.length ≤ 2 then
        let t ← parseTimeOfDay time
        let y ← parseFixedNat 4 year
        some { sec := t.2.2, min := t.2.1, hour := t.1, mday := d, mon := m,
               year := y }
      else none
    else none
  | _ => none

/-- Modelled from the spec: `Tm::to_local` — conversion into the local
timezone.  The spec leaves the timezone to the environment; the claims only
depend on the conversion being total, so the UTC environment (the identity)
is used. -/
def to_local (t : Tm) : Tm := t

/-- Two-digit zero-padded decimal rendering. -/
def pad2 (n : Nat) : String :=
  if n < 10 then "0" ++ toString n else toString n

/-- Modelled from the spec: `Tm::strftime` with the fixed output format
`%m/%d/%Y %H:%M:%S` used for `document.lastModified`. -/
def strftime_output (t : Tm) : String :=
  pad2 (t.mon + 1) ++ "/" ++ pad2 t.mday ++ "/" ++ toString t.year ++ " " ++
    pad2 t.hour ++ ":" ++ pad2 t.min ++ ":" ++ pad2 t.sec

/-- The header parse (source fn `parse_last_modified`): try the RFC 822/1123
format, then RFC 850, then ANSI C `asctime`, returning the first match
formatted as a local time, and the empty string when none matches. -/
def parse_last_modified (timestamp : String) : String :=
  match strptime_rfc1123 timestamp with
  | some t => strftime_output (to_local t)
  | none =>
    match strptime_rfc850 timestamp with
    | some t => strftime_output (to_local t)
    | none =>
      match strptime_asctime timestamp with
      | some t => strftime_output (to_local t)
      | none => ""

/-- The spec's one-sentence description of the same parse: a fixed ordered
list of formats, first match wins, else the empty string. -/
def parse_last_modified_spec (timestamp : String) : String :=
  match [strptime_rfc1123, strptime_rfc850, strptime_asctime].findSome?
      (fun f => f timestamp) with
  | some t => strftime_output (to_local t)
  | none => ""

theorem js_script_listener_eq_filterMap (resource_task : ResourceTask)
    (reqs : List JSMessage) (hne : JSMessage.JSTaskExit ∉ reqs) :
    js_script_listener resource_task (reqs ++ [JSMessage.JSTaskExit]) =
      reqs.filterMap (respond resource_task) := by
  induction reqs with
  | nil => simp [js_script_listener]
  | cons m rest ih =>
    have hm : m ≠ JSMessage.JSTaskExit := fun h => hne (h ▸ List.mem_cons_self m rest)
    have hrest : JSMessage.JSTaskExit ∉ rest := fun h => hne (List.mem_cons_of_mem m h)
    cases m with
    | JSTaskNewFile url =>
      cases hres : resource_task url with
      | none => simp [js_script_listener, respond, hres, ih hrest]
      | some p => simp [js_script_listener, respond, hres, ih hrest]
    | JSTaskNewInlineScript data url =>
      simp [js_script_listener, respond, ih hrest]
    | JSTaskExit => exact absurd rfl hm

theorem filterMap_forall₂_of_isSome {α β : Type} (f : α → Option β) (l : List α)
    (h : ∀ a ∈ l, (f a).isSome) :
    List.Forall₂ (fun a b => f a = some b) l (l.filterMap f) := by
  induction l with
  | nil => simp
  | cons a rest ih =>
    have ha : (f a).isSome := h a (List.mem_cons_self a rest)
    obtain ⟨b, hb⟩ := Option.isSome_iff_exists.mp ha
    rw [List.filterMap_cons, hb]
    exact List.Forall₂.cons hb (ih fun x hx => h x (List.mem_cons_of_mem a hx))

theorem inline_script_data_map_text (texts : List String) :
    inline_script_data (texts.map ScriptChild.text) =
      some (texts.foldr (fun a b => a ++ b) "") := by
  induction texts with
  | nil => rfl
  | cons d rest ih => simp [inline_script_data, ih]

theorem create_element_attr_fold_none (e : Element) (attrs : List HubbubAttr)
    (h : ∃ a ∈ attrs, attr_namespace a.ns = none) :
    attrs.foldlM
      (fun element attr =>
        match attr_namespace attr.ns with
        | none => none
        | some (ns, p) =>
          some (set_attribute_from_parsing element attr.name attr.value ns p))
      e = none := by
  induction attrs generalizing e with
  | nil => simp at h
  | cons a rest ih =>
    obtain ⟨b, hb, hbad⟩ := h
    rcases List.mem_cons.mp hb with hba | hbr
    · subst hba
      simp [List.foldlM_cons, hbad]
    · cases ha : attr_namespace a.ns with
      | none => simp [List.foldlM_cons, ha]
      | some p => simp [List.foldlM_cons, ha, ih _ ⟨b, hbr, hbad⟩]

theorem create_element_attr_fold_some (e : Element) (attrs : List HubbubAttr)
    (h : ∀ a ∈ attrs, (attr_namespace a.ns).isSome) :
    attrs.foldlM
      (fun element attr =>
        match attr_namespace attr.ns with
        | none => none
        | some (ns, p) =>
          some (set_attribute_from_parsing element attr.name attr.value ns p))
      e = some { e with attrs := e.attrs ++ attrs.filterMap attrOf } := by
  induction attrs generalizing e with
  | nil => simp
  | cons a rest ih =>
    have ha : (attr_namespace a.ns).isSome := h a (List.mem_cons_self a rest)
    obtain ⟨p, hp⟩ := Option.isSome_iff_exists.mp ha
    rw [List.foldlM_cons, hp]
    simp only [Option.bind_eq_bind, Option.some_bind]
    rw [ih _ fun x hx => h x (List.mem_cons_of_mem a hx)]
    simp [set_attribute_from_parsing, attrOf, hp, List.filterMap_cons]

theorem append_children_cons (st : DomState) (parent c : NodeDataPtr)
    (cs : List NodeDataPtr) :
    append_children st parent (c :: cs) =
      append_children (append_child st parent c).1 parent cs := rfl

/-- Claim C1: with every external load succeeding, the result sequence the
pipeline publishes for a parse pass has exactly one entry per request the
bridge enqueued, in exactly the enqueue (document discovery) order, each
entry being that request's own result — inline and external requests
interleaved arbitrarily.  The worker drains the channel sequentially, so no
load latency can reorder entries. -/
theorem pipeline_publishes_in_discovery_order (resource_task : ResourceTask)
    (reqs : List JSMessage) (hexit : JSMessage.JSTaskExit ∉ reqs)
    (hsucc : ∀ m ∈ reqs, (respond resource_task m).isSome) :
    List.Forall₂ (fun m f => respond resource_task m = some f) reqs
      (js_script_listener resource_task (reqs ++ [JSMessage.JSTaskExit])) := by
  rw [js_script_listener_eq_filterMap resource_task reqs hexit]
  exact filterMap_forall₂_of_isSome _ _ hsucc

/-- A concrete run of claim C1's theorem: inline `A`, then external
`http://x`, then inline `B`; the published sequence is `[A, XC, B]` with the
external entry in its discovery position. -/
theorem pipeline_publishes_in_discovery_order_witness :
    List.Forall₂
      (fun m f =>
        respond
          (fun u =>
            if u.serialized = "http://x" then
              some ({ final_url := { serialized := "http://x" } }, "XC")
            else none) m = some f)
      [JSMessage.JSTaskNewInlineScript "A" none,
       JSMessage.JSTaskNewFile { serialized := "http://x" },
       JSMessage.JSTaskNewInlineScript "B" none]
      (js_script_listener
        (fun u =>
          if u.serialized = "http://x" then
            some ({ final_url := { serialized := "http://x" } }, "XC")
          else none)
        ([JSMessage.JSTaskNewInlineScript "A" none,
          JSMessage.JSTaskNewFile { serialized := "http://x" },
          JSMessage.JSTaskNewInlineScript "B" none] ++
         [JSMessage.JSTaskExit])) ∧
    js_script_listener
        (fun u =>
          if u.serialized = "http://x" then
            some ({ final_url := { serialized := "http://x" } }, "XC")
          else none)
        ([JSMessage.JSTaskNewInlineScript "A" none,
          JSMessage.JSTaskNewFile { serialized := "http://x" },
          JSMessage.JSTaskNewInlineScript "B" none] ++
         [JSMessage.JSTaskExit]) =
      [{ data := "A", url := none },
       { data := "XC", url := some { serialized := "http://x" } },
       { data := "B", url := none }] :=
  ⟨pipeline_publishes_in_discovery_order _ _ (by decide) (by decide),
   by decide⟩

/-- Claim C4: when one external script's load fails, the pipeline skips
exactly that entry and processes every request before and after it
unchanged: the published set is the earlier results followed by the later
results, which is precisely what publishing would give had the failed
request never been enqueued; the worker reaches the publish step (no
abort). -/
theorem pipeline_skips_failed_load (resource_task : ResourceTask)
    (pre post : List JSMessage) (u : Url)
    (hpre : JSMessage.JSTaskExit ∉ pre) (hpost : JSMessage.JSTaskExit ∉ post)
    (hfail : resource_task u = none) :
    js_script_listener resource_task
        ((pre ++ [JSMessage.JSTaskNewFile u] ++ post) ++ [JSMessage.JSTaskExit]) =
      pre.filterMap (respond resource_task) ++
        post.filterMap (respond resource_task) ∧
    js_script_listener resource_task
        ((pre ++ [JSMessage.JSTaskNewFile u] ++ post) ++ [JSMessage.JSTaskExit]) =
      js_script_listener resource_task ((pre ++ post) ++ [JSMessage.JSTaskExit]) := by
  have hmid : JSMessage.JSTaskExit ∉ pre ++ [JSMessage.JSTaskNewFile u] ++ post := by
    intro hmem
    rcases List.mem_append.mp hmem with hl | hr
    · rcases List.mem_append.mp hl with h1 | h2
      · exact hpre h1
      · simp at h2
    · exact hpost hr
  have hcat : JSMessage.JSTaskExit ∉ pre ++ post := by
    intro hmem
    rcases List.mem_append.mp hmem with h1 | h2
    · exact hpre h1
    · exact hpost h2
  rw [js_script_listener_eq_filterMap resource_task _ hmid,
      js_script_listener_eq_filterMap resource_task _ hcat]
  simp [List.filterMap_append, respond, hfail]

/-- A concrete run of claim C4's theorem: inline `A`, a failing external
`http://dead`, inline `B`; the published sequence is `[A, B]`. -/
theorem pipeline_skips_failed_load_witness :
    js_script_listener (fun _ => none)
        (([JSMessage.JSTaskNewInlineScript "A" none] ++
          [JSMessage.JSTaskNewFile { serialized := "http://dead" }] ++
          [JSMessage.JSTaskNewInlineScript "B" none]) ++
         [JSMessage.JSTaskExit]) =
      List.filterMap (respond (fun _ => none))
          [JSMessage.JSTaskNewInlineScript "A" none] ++
        List.filterMap (respond (fun _ => none))
          [JSMessage.JSTaskNewInlineScript "B" none] ∧
    js_script_listener (fun _ => none)
        (([JSMessage.JSTaskNewInlineScript "A" none] ++
          [JSMessage.JSTaskNewFile { serialized := "http://dead" }] ++
          [JSMessage.JSTaskNewInlineScript "B" none]) ++
         [JSMessage.JSTaskExit]) =
      js_script_listener (fun _ => none)
        (([JSMessage.JSTaskNewInlineScript "A" none] ++
          [JSMessage.JSTaskNewInlineScript "B" none]) ++
         [JSMessage.JSTaskExit]) :=
  pipeline_skips_failed_load (fun _ => none)
    [JSMessage.JSTaskNewInlineScript "A" none]
    [JSMessage.JSTaskNewInlineScript "B" none]
    { serialized := "http://dead" } (by decide) (by decide) rfl

/-- Claim C2: every tag name in the known-HTML-tag table builds, in the HTML
namespace, an element whose local name is the input tag and whose concrete
kind (with heading level) is the one the table assigns; for each of
`h1`-`h6` the heading level equals the numeric suffix of the tag. -/
theorem build_element_known_tags :
    (∀ p ∈ knownHtmlTags,
      build_element_from_tag p.1 Ns.HTML =
        { local_name := p.1, namespace_ := Ns.HTML, kind := p.2.1,
          heading_level := p.2.2, attrs := [] }) ∧
    (∀ n : Nat, 1 ≤ n → n ≤ 6 →
      (build_element_from_tag ("h" ++ toString n) Ns.HTML).kind =
          ElementKind.HTMLHeadingElement ∧
        ((build_element_from_tag ("h" ++ toString n) Ns.HTML).heading_level.map
            HeadingLevel.toNat) = some n) := by
  constructor
  · decide
  · intro n h1 h6
    interval_cases n <;> exact ⟨by decide, by decide⟩

/-- A concrete run of claim C2's theorem: the `table` tag and the `h4`
heading. -/
theorem build_element_known_tags_witness :
    build_element_from_tag "table" Ns.HTML =
      { local_name := "table", namespace_ := Ns.HTML,
        kind := ElementKind.HTMLTableElement, heading_level := none,
        attrs := [] } ∧
    ((build_element_from_tag "h4" Ns.HTML).kind =
        ElementKind.HTMLHeadingElement ∧
      ((build_element_from_tag "h4" Ns.HTML).heading_level.map
          HeadingLevel.toNat) = some 4) :=
  ⟨build_element_known_tags.1 ("table", ElementKind.HTMLTableElement, none)
      (by decide),
    build_element_known_tags.2 4 (by decide) (by decide)⟩

/-- Claim C9: every tag name outside the known-HTML-tag table builds, in the
HTML namespace, the generic `HTMLUnknownElement` kind carrying the original
tag name unchanged; the chain's fallthrough leaves no error path. -/
theorem build_element_unknown_tag (tag : String)
    (h : tag ∉ knownHtmlTags.map Prod.fst) :
    build_element_from_tag tag Ns.HTML =
      htmlElt tag ElementKind.HTMLUnknownElement := by
  have hne : ∀ s, s ∈ knownHtmlTags.map Prod.fst → ¬ (tag = s) :=
    fun s hs e => h (e.symm ▸ hs)
  unfold build_element_from_tag
  rw [if_neg (show ¬(Ns.HTML ≠ Ns.HTML) from fun hn => hn rfl),
      if_neg (hne "a" (by decide)),
      if_neg (hne "abbr" (by decide)),
      if_neg (hne "acronym" (by decide)),
      if_neg (hne "address" (by decide)),
      if_neg (hne "applet" (by decide)),
      if_neg (hne "area" (by decide)),
      if_neg (hne "article" (by decide)),
      if_neg (hne "aside" (by decide)),
      if_neg (hne "audio" (by decide)),
      if_neg (hne "b" (by decide)),
      if_neg (hne "base" (by decide)),
      if_neg (hne "bdi" (by decide)),
      if_neg (hne "bdo" (by decide)),
      if_neg (hne "bgsound" (by decide)),
      if_neg (hne "big" (by decide)),
      if_neg (hne "blockquote" (by decide)),
      if_neg (hne "body" (by decide)),
      if_neg (hne "br" (by decide)),
      if_neg (hne "button" (by decide)),
      if_neg (hne "canvas" (by decide)),
      if_neg (hne "caption" (by decide)),
      if_neg (hne "center" (by decide)),
      if_neg (hne "cite" (by decide)),
      if_neg (hne "code" (by decide)),
      if_neg (hne "col" (by decide)),
      if_neg (hne "colgroup" (by decide)),
      if_neg (hne "data" (by decide)),
      if_neg (hne "datalist" (by decide)),
      if_neg (hne "dd" (by decide)),
      if_neg (hne "del" (by decide)),
      if_neg (hne "details" (by decide)),
      if_neg (hne "dfn" (by decide)),
      if_neg (hne "dir" (by decide)),
      if_neg (hne "div" (by decide)),
      if_neg (hne "dl" (by decide)),
      if_neg (hne "dt" (by decide)),
      if_neg (hne "em" (by decide)),
      if_neg (hne "embed" (by decide)),
      if_neg (hne "fieldset" (by decide)),
      if_neg (hne "figcaption" (by decide)),
      if_neg (hne "figure" (by decide)),
      if_neg (hne "font" (by decide)),
      if_neg (hne "footer" (by decide)),
      if_neg (hne "form" (by decide)),
      if_neg (hne "frame" (by decide)),
      if_neg (hne "frameset" (by decide)),
      if_neg (hne "h1" (by decide)),
      if_neg (hne "h2" (by decide)),
      if_neg (hne "h3" (by decide)),
      if_neg (hne "h4" (by decide)),
      if_neg (hne "h5" (by decide)),
      if_neg (hne "h6" (by decide)),
      if_neg (hne "head" (by decide)),
      if_neg (hne "header" (by decide)),
      if_neg (hne "hgroup" (by decide)),
      if_neg (hne "hr" (by decide)),
      if_neg (hne "html" (by decide)),
      if_neg (hne "i" (by decide)),
      if_neg (hne "iframe" (by decide)),
      if_neg (hne "img" (by decide)),
      if_neg (hne "input" (by decide)),
      if_neg (hne "ins" (by decide)),
      if_neg (hne "isindex" (by decide)),
      if_neg (hne "kbd" (by decide)),
      if_neg (hne "label" (by decide)),
      if_neg (hne "legend" (by decide)),
      if_neg (hne "li" (by decide)),
      if_neg (hne "link" (by decide)),
      if_neg (hne "main" (by decide)),
      if_neg (hne "map" (by decide)),
      if_neg (hne "mark" (by decide)),
      if_neg (hne "marquee" (by decide)),
      if_neg (hne "meta" (by decide)),
      if_neg (hne "meter" (by decide)),
      if_neg (hne "nav" (by decide)),
      if_neg (hne "nobr" (by decide)),
      if_neg (hne "noframes" (by decide)),
      if_neg (hne "noscript" (by decide)),
      if_neg (hne "object" (by decide)),
      if_neg (hne "ol" (by decide)),
      if_neg (hne "optgroup" (by decide)),
      if_neg (hne "option" (by decide)),
      if_neg (hne "output" (by decide)),
      if_neg (hne "p" (by decide)),
      if_neg (hne "param" (by decide)),
      if_neg (hne "pre" (by decide)),
      if_neg (hne "progress" (by decide)),
      if_neg (hne "q" (by decide)),
      if_neg (hne "rp" (by decide)),
      if_neg (hne "rt" (by decide)),
      if_neg (hne "ruby" (by decide)),
      if_neg (hne "s" (by decide)),
      if_neg (hne "samp" (by decide)),
      if_neg (hne "script" (by decide)),
      if_neg (hne "section" (by decide)),
      if_neg (hne "select" (by decide)),
      if_neg (hne "small" (by decide)),
      if_neg (hne "source" (by decide)),
      if_neg (hne "spacer" (by decide)),
      if_neg (hne "span" (by decide)),
      if_neg (hne "strike" (by decide)),
      if_neg (hne "strong" (by decide)),
      if_neg (hne "style" (by decide)),
      if_neg (hne "sub" (by decide)),
      if_neg (hne "summary" (by decide)),
      if_neg (hne "sup" (by decide)),
      if_neg (hne "table" (by decide)),
      if_neg (hne "tbody" (by decide)),
      if_neg (hne "td" (by decide)),
      if_neg (hne "template" (by decide)),
      if_neg (hne "textarea" (by decide)),
      if_neg (hne "th" (by decide)),
      if_neg (hne "time" (by decide)),
      if_neg (hne "title" (by decide)),
      if_neg (hne "tr" (by decide)),
      if_neg (hne "tt" (by decide)),
      if_neg (hne "track" (by decide)),
      if_neg (hne "u" (by decide)),
      if_neg (hne "ul" (by decide)),
      if_neg (hne "var" (by decide)),
      if_neg (hne "video" (by decide)),
      if_neg (hne "wbr" (by decide))]

/-- A concrete run of claim C9's theorem: the nonstandard tag `blink` maps
to the unknown-element kind and its name round-trips. -/
theorem build_element_unknown_tag_witness :
    build_element_from_tag "blink" Ns.HTML =
      htmlElt "blink" ElementKind.HTMLUnknownElement ∧
    (htmlElt "blink" ElementKind.HTMLUnknownElement).local_name = "blink" :=
  ⟨build_element_unknown_tag "blink" (by decide), rfl⟩

theorem build_element_attrs_nil (tag : String) (ns : Ns) :
    (build_element_from_tag tag ns).attrs = [] := by
  unfold build_element_from_tag
  simp [apply_ite Element.attrs, htmlElt, htmlHeadingElt]

/-- Claim C3: for a completed script element, `complete_script` is a no-op
when the computed script type is not executable; with a `src` attribute the
value is resolved against the page's base URL and an External request with
the resolved URL is enqueued; otherwise the text of the element's text-node
children is concatenated in document order into one string and an Inline
request carrying that string and the base URL is enqueued. -/
theorem complete_script_contract (url_parse : UrlParse) (base_url : Option Url)
    (script : ScriptElement) :
    (script.is_javascript = false →
      complete_script url_parse base_url (some script) = some []) ∧
    (∀ src new_url, script.is_javascript = true →
      script.src_attr = some src → url_parse base_url src = some new_url →
      complete_script url_parse base_url (some script) =
        some [JSMessage.JSTaskNewFile new_url]) ∧
    (∀ texts : List String, script.is_javascript = true → script.src_attr = none →
      script.children = texts.map ScriptChild.text →
      complete_script url_parse base_url (some script) =
        some [JSMessage.JSTaskNewInlineScript
          (texts.foldr (fun a b => a ++ b) "") base_url]) := by
  refine ⟨?_, ?_, ?_⟩
  · intro hjs
    simp [complete_script, hjs]
  · intro src new_url hjs hsrc hurl
    simp [complete_script, hjs, hsrc, hurl]
  · intro texts hjs hsrc hch
    simp [complete_script, hjs, hsrc, hch, inline_script_data_map_text]

/-- A concrete run of claim C3's theorem covering all three arms: a
non-executable script sends nothing; `x.js` resolves against the base and is
sent as an External request; two text children concatenate into one Inline
request carrying the base URL. -/
theorem complete_script_contract_witness :
    complete_script (fun _ _ => none) none
        (some { is_javascript := false, src_attr := none, children := [] }) =
      some [] ∧
    complete_script
        (fun b s =>
          if b = some { serialized := "http://p/" } ∧ s = "x.js" then
            some { serialized := "http://p/x.js" }
          else none)
        (some { serialized := "http://p/" })
        (some { is_javascript := true, src_attr := some "x.js", children := [] }) =
      some [JSMessage.JSTaskNewFile { serialized := "http://p/x.js" }] ∧
    complete_script (fun _ _ => none) (some { serialized := "http://p/" })
        (some { is_javascript := true, src_attr := none,
                children := [ScriptChild.text "A", ScriptChild.text "B"] }) =
      some [JSMessage.JSTaskNewInlineScript
        (["A", "B"].foldr (fun a b => a ++ b) "")
        (some { serialized := "http://p/" })] :=
  ⟨(complete_script_contract _ _ _).1 rfl,
   (complete_script_contract _ _ _).2.1 "x.js" _ rfl rfl (by decide),
   (complete_script_contract _ _ _).2.2 ["A", "B"] rfl rfl rfl⟩

/-- Claim C10: when a completed script's `src` attribute value fails to
parse as a URL (for instance a relative reference with no base URL
available), `complete_script` sends no message at all — so the published
result set gets no entry for that script — and the handler returns normally
rather than erroring. -/
theorem complete_script_bad_url (url_parse : UrlParse) (base_url : Option Url)
    (script : ScriptElement) (src : String)
    (hsrc : script.src_attr = some src)
    (hfail : url_parse base_url src = none) :
    complete_script url_parse base_url (some script) = some [] := by
  cases hjs : script.is_javascript with
  | false => simp [complete_script, hjs]
  | true => simp [complete_script, hjs, hsrc, hfail]

/-- A concrete run of claim C10's theorem: a relative `src` with no base URL
available enqueues nothing. -/
theorem complete_script_bad_url_witness :
    complete_script (fun b _ => b) none
        (some { is_javascript := true, src_attr := some "relative.js",
                children := [] }) =
      some [] :=
  complete_script_bad_url (fun b _ => b) none
    { is_javascript := true, src_attr := some "relative.js", children := [] }
    "relative.js" rfl rfl

/-- Claim C5 fails on the code: after the bridge itself appends node 2 under
node 1, the `has_children` callback still answers `false` although the
live-tree query finds a child — the callback is a stub, not an
implementation of the query contract. -/
theorem tree_editing_stub_counterexample :
    ¬ (has_children 1 =
        has_children_query (append_child { children := fun _ => [] } 1 2).1 1) := by
  decide

/-- Claim C5 (amended): of the tree-editing contract only `append_child` is
implemented; `insert_before`, `remove_child`, `reparent_children` and
`get_parent` are stubs returning the null handle `0`, `has_children` always
answers `false`, `form_associate` and `add_attributes` do nothing, and
`clone_node` aborts — none of these eight reads or mutates the live tree. -/
theorem tree_editing_callbacks_are_stubs :
    (∀ p c, insert_before p c = 0) ∧ (∀ p c, remove_child p c = 0) ∧
    (∀ n d, clone_node n d = none) ∧ (∀ n np, reparent_children n np = 0) ∧
    (∀ n b, get_parent n b = 0) ∧ (∀ n, has_children n = false) ∧
    (∀ f n, form_associate f n = ()) ∧ (∀ n a, add_attributes n a = ()) :=
  ⟨fun _ _ => rfl, fun _ _ => rfl, fun _ _ => rfl, fun _ _ => rfl,
   fun _ _ => rfl, fun _ => rfl, fun _ _ => rfl, fun _ _ => rfl⟩

/-- Claim C6: `create_element` treats a namespace id outside the accepted
enumerations as a fatal abort (`none`, the `fail!` path) — both for the
element's namespace and for any attribute's namespace — and succeeds on
every namespace id inside them, mapping each id to its concrete namespace
value and attaching the attributes through the parser path in order. -/
theorem create_element_namespace_contract (tag : HubbubTag) :
    (element_namespace tag.ns = none → create_element tag = none) ∧
    (∀ a ∈ tag.attributes, attr_namespace a.ns = none →
      create_element tag = none) ∧
    (∀ nsv, element_namespace tag.ns = some nsv →
      (∀ a ∈ tag.attributes, (attr_namespace a.ns).isSome) →
      create_element tag =
        some { build_element_from_tag tag.name nsv with
               attrs := tag.attributes.filterMap attrOf }) := by
  refine ⟨?_, ?_, ?_⟩
  · intro h
    simp [create_element, h]
  · intro a ha hbad
    cases h : element_namespace tag.ns with
    | none => simp [create_element, h]
    | some nsv =>
      simp [create_element, h,
        create_element_attr_fold_none _ _ ⟨a, ha, hbad⟩]
  · intro nsv h hall
    simp [create_element, h, create_element_attr_fold_some _ _ hall,
      build_element_attrs_nil]

/-- A concrete run of claim C6's theorem: an element namespace outside
`{Html, MathMl, Svg}` aborts; an attribute namespace outside
`{Null, XLink, Xml, XmlNs}` aborts; accepted ids map to their concrete
namespace values. -/
theorem create_element_namespace_contract_witness :
    create_element { name := "div", ns := HubbubNs.XLinkNs, attributes := [] } =
      none ∧
    create_element
        { name := "div", ns := HubbubNs.HtmlNs,
          attributes := [{ ns := HubbubNs.SvgNs, name := "x", value := "1" }] } =
      none ∧
    create_element
        { name := "math", ns := HubbubNs.MathMlNs,
          attributes :=
            [{ ns := HubbubNs.XmlNsNs, name := "mathml", value := "u" }] } =
      some { build_element_from_tag "math" Ns.MathML with
             attrs :=
               ([{ ns := HubbubNs.XmlNsNs, name := "mathml", value := "u" }] :
                   List HubbubAttr).filterMap attrOf } :=
  ⟨(create_element_namespace_contract _).1 rfl,
   (create_element_namespace_contract _).2.1
     { ns := HubbubNs.SvgNs, name := "x", value := "1" } (by decide) rfl,
   (create_element_namespace_contract _).2.2 Ns.MathML rfl (by decide)⟩

/-- Claim C7: the last-modified header parse tries the RFC 822/1123 format,
then RFC 850, then ANSI C asctime, in that fixed order, first match wins,
formatting the matched time as a local timestamp; when no format matches it
returns the empty string rather than failing.  The RFC 1123 example yields a
non-empty formatted string and `garbage` yields the empty string. -/
theorem parse_last_modified_formats :
    (∀ timestamp,
      parse_last_modified timestamp = parse_last_modified_spec timestamp) ∧
    parse_last_modified "Sun, 06 Nov 1994 08:49:37 GMT" ≠ "" ∧
    parse_last_modified "garbage" = "" := by
  refine ⟨fun ts => ?_, by decide, by decide⟩
  unfold parse_last_modified parse_last_modified_spec
  cases h1 : strptime_rfc1123 ts <;> cases h2 : strptime_rfc850 ts <;>
    cases h3 : strptime_asctime ts <;> simp [List.findSome?, h1, h2, h3]

/-- Claim C8: `append_child` echoes the child handle back to the engine and
appends the child at the end of the parent's ordered child list; hence a
sequence of `append_child` calls on one parent, starting from a fresh
parent, enumerates the children in exactly call order. -/
theorem append_child_echo_and_order :
    (∀ st parent child,
      (append_child st parent child).2 = child ∧
      ((append_child st parent child).1).children parent =
        st.children parent ++ [child]) ∧
    (∀ st parent cs,
      (append_children st parent cs).children parent =
        st.children parent ++ cs) ∧
    (∀ parent cs,
      (append_children { children := fun _ => [] } parent cs).children parent =
        cs) := by
  have key : ∀ cs (st : DomState) (parent : NodeDataPtr),
      (append_children st parent cs).children parent =
        st.children parent ++ cs := by
    intro cs
    induction cs with
    | nil => intro st parent; simp [append_children]
    | cons c rest ih =>
      intro st parent
      rw [append_children_cons, ih]
      simp [append_child, AppendChild]
  refine ⟨?_, fun st parent cs => key cs st parent, ?_⟩
  · intro st parent child
    exact ⟨rfl, by simp [append_child, AppendChild]⟩
  · intro parent cs
    rw [key]
    simp

/-- A concrete run of claim C5's amended theorem: three of the stubbed
callbacks evaluated at concrete handles. -/
theorem tree_editing_callbacks_are_stubs_witness :
    insert_before 1 2 = 0 ∧ has_children 1 = false ∧ clone_node 1 true = none :=
  ⟨tree_editing_callbacks_are_stubs.1 1 2,
   tree_editing_callbacks_are_stubs.2.2.2.2.2.1 1,
   tree_editing_callbacks_are_stubs.2.2.1 1 true⟩

/-- A concrete run of claim C7's theorem: agreement with the ordered-format
description on a concrete RFC 850 input, and the empty-string fallback. -/
theorem parse_last_modified_formats_witness :
    parse_last_modified "Sunday, 06-Nov-94 08:49:37 GMT" =
      parse_last_modified_spec "Sunday, 06-Nov-94 08:49:37 GMT" ∧
    parse_last_modified "garbage" = "" :=
  ⟨parse_last_modified_formats.1 "Sunday, 06-Nov-94 08:49:37 GMT",
   parse_last_modified_formats.2.2⟩

/-- A concrete run of claim C8's theorem: the child handle is echoed, and
three appends under a fresh parent enumerate in call order. -/
theorem append_child_echo_and_order_witness :
    (append_child { children := fun _ => [] } 1 2).2 = 2 ∧
    (append_children { children := fun _ => [] } 1 [2, 3, 4]).children 1 =
      [2, 3, 4] :=
  ⟨(append_child_echo_and_order.1 { children := fun _ => [] } 1 2).1,
   append_child_echo_and_order.2.2 1 [2, 3, 4]⟩

end Hubbub
